import Mathlib

/-!
Verification development for the scripting-system backup pipeline.

The Python sources are shallowly embedded below:
* `source/zip.py`   — fetch/extract, SHA-1 change detection, tar.gz packaging,
  retained-copy rotation (`Zip.download_unzip`, `Zip.check_file_version`,
  `Zip.compress_targz`, `Zip.clean_directory`);
* `source/samba.py` — SMB session handling, upload, presence check and the
  age-based eviction sweep (`SMBServer.connect/disconnect/send_file/
  check_file/check_server`, plus the `save_days` parsing in `__init__`);
* `main.py`         — the orchestrator `main`.

Machine-level conventions: bytes are `Nat` (values `< 256` in every run),
32-bit machine words are `Nat` reduced by `% 2 ^ 32`, Python exceptions are an
explicit `PyErr` value threaded through `Except`/`Res`, and the status events
emitted through `Log.info/warning/error` are recorded as `Event` lists in
program order (stage name only; the free-text part of a message carries no
control flow).
-/

namespace Script

/-- Severity of a status event, mirroring `Log.info`, `Log.warning`,
`Log.error` in `source/log.py`. -/
inductive Severity
  | INFO
  | WARNING
  | ERROR
deriving DecidableEq, Repr

/-- One status event: severity plus the `action_name` ("stage") string the
source passes to the logger. -/
structure Event where
  sev : Severity
  stage : String
deriving DecidableEq, Repr

/-- The Python exception kinds relevant to the embedded code paths. -/
inductive PyErr
  | attributeError
  | typeError
  | fileNotFoundError
  | nameError
  | valueError
  | timeoutError
  | notConnectedError
  | operationFailed
deriving DecidableEq, Repr

/-! ## SHA-1 (`hashlib.sha1`), as used by `Zip.check_file_version`

`check_file_version` feeds each file to `hashlib.sha1` in 65536-byte chunks
and compares `hexdigest()` strings.  The embedding implements SHA-1 itself
(FIPS 180 style, 32-bit words as `Nat % 2^32`) and models the incremental
`update` interface by its documented contract: repeated `update` calls are
equivalent to one call on the concatenation of the arguments, so the hash
object state is the byte stream accumulated so far. -/

/-- Reduce to a 32-bit machine word. -/
def w32 (x : Nat) : Nat := x % 4294967296

/-- Rotate a 32-bit word left by `n` (for `0 < n < 32`, `x < 2 ^ 32`). -/
def rotl (n x : Nat) : Nat := w32 (x <<< n) ||| (x >>> (32 - n))

/-- SHA-1 running state: the five 32-bit chaining words. -/
structure H5 where
  a : Nat
  b : Nat
  c : Nat
  d : Nat
  e : Nat
deriving DecidableEq, Repr

/-- SHA-1 initial chaining value. -/
def sha1Init : H5 := ⟨0x67452301, 0xEFCDAB89, 0x98BADCFE, 0x10325476, 0xC3D2E1F0⟩

/-- Big-endian assembly of 4-byte groups into 32-bit words. -/
def toWords : List Nat → List Nat
  | b0 :: b1 :: b2 :: b3 :: rest =>
      w32 (b0 * 16777216 + b1 * 65536 + b2 * 256 + b3) :: toWords rest
  | _ => []

/-- Message-schedule expansion of the 16 block words to 80. -/
def expand (ws : Array Nat) : Array Nat :=
  (List.range 64).foldl
    (fun a j =>
      a.push (rotl 1 ((a.getD (j + 13) 0) ^^^ (a.getD (j + 8) 0) ^^^
                      (a.getD (j + 2) 0) ^^^ (a.getD j 0))))
    ws

/-- The SHA-1 round function and round constant for round `t`. -/
def fk (t b c d : Nat) : Nat × Nat :=
  if t < 20 then ((b &&& c) ||| ((b ^^^ 4294967295) &&& d), 0x5A827999)
  else if t < 40 then (b ^^^ c ^^^ d, 0x6ED9EBA1)
  else if t < 60 then ((b &&& c) ||| (b &&& d) ||| (c &&& d), 0x8F1BBCDC)
  else (b ^^^ c ^^^ d, 0xCA62C1D6)

/-- One SHA-1 round. -/
def sha1Round (wt t : Nat) : H5 → H5
  | ⟨a, b, c, d, e⟩ =>
    let p := fk t b c d
    ⟨w32 (rotl 5 a + p.1 + e + p.2 + wt), a, rotl 30 b, c, d⟩

/-- Compress one 64-byte block into the chaining state. -/
def processBlock (h : H5) (block : List Nat) : H5 :=
  let ws := expand (toWords block).toArray
  let r := (List.range 80).foldl (fun st t => sha1Round (ws.getD t 0) t st) h
  ⟨w32 (h.a + r.a), w32 (h.b + r.b), w32 (h.c + r.c), w32 (h.d + r.d), w32 (h.e + r.e)⟩

/-- Big-endian 8-byte encoding of the 64-bit message bit length. -/
def lenBytes (n : Nat) : List Nat :=
  [(n >>> 56) % 256, (n >>> 48) % 256, (n >>> 40) % 256, (n >>> 32) % 256,
   (n >>> 24) % 256, (n >>> 16) % 256, (n >>> 8) % 256, n % 256]

/-- SHA-1 padding: `0x80`, zeros to 56 mod 64, then the bit length. -/
def sha1Pad (msg : List Nat) : List Nat :=
  let len := msg.length
  let r := (len + 1) % 64
  let k := (120 - r) % 64
  msg ++ 128 :: List.replicate k 0 ++ lenBytes (8 * len)

/-- Chunk splitting with an explicit structural fuel (`fuel ≥ l.length`
suffices for positive `n`, since each step consumes at least one byte);
when the fuel runs out or `n = 0`, the rest is emitted as one chunk, so the
chunks always concatenate back to the input. -/
def chunksOfF (n : Nat) : Nat → List Nat → List (List Nat)
  | _, [] => []
  | 0, l => [l]
  | fuel + 1, l => if n = 0 then [l] else l.take n :: chunksOfF n fuel (l.drop n)

/-- Split a byte list into consecutive chunks of `n` bytes (last one may be
short) — exactly the shape produced by the `file.read(65536)` loop in
`Zip.check_file_version`, and reused for 64-byte SHA-1 blocks. -/
def chunksOf (n : Nat) (l : List Nat) : List (List Nat) :=
  chunksOfF n l.length l

/-- Full SHA-1 over a byte list, producing the five digest words. -/
def sha1Words (msg : List Nat) : H5 :=
  (chunksOf 64 (sha1Pad msg)).foldl processBlock sha1Init

/-- Lowercase hex digit. -/
def hexChar (n : Nat) : Char :=
  if n < 10 then Char.ofNat (48 + n) else Char.ofNat (87 + n)

/-- Eight lowercase hex digits of a 32-bit word, most significant first. -/
def hex8 (w : Nat) : List Char :=
  [hexChar ((w >>> 28) &&& 15), hexChar ((w >>> 24) &&& 15),
   hexChar ((w >>> 20) &&& 15), hexChar ((w >>> 16) &&& 15),
   hexChar ((w >>> 12) &&& 15), hexChar ((w >>> 8) &&& 15),
   hexChar ((w >>> 4) &&& 15), hexChar (w &&& 15)]

/-- `hashlib.sha1(msg).hexdigest()` on a whole byte list. -/
def sha1hex (msg : List Nat) : String :=
  let h := sha1Words msg
  String.mk (hex8 h.a ++ hex8 h.b ++ hex8 h.c ++ hex8 h.d ++ hex8 h.e)

/-- State of a `hashlib.sha1()` object: by the documented `update` contract,
the digest depends only on the concatenation of all bytes fed so far, so the
state is that accumulated stream. -/
def hashUpdate (buf dat : List Nat) : List Nat := buf ++ dat

/-- `hexdigest()` of an accumulated hash-object state. -/
def hexdigest (buf : List Nat) : String := sha1hex buf

/-- The digest actually computed by the `read(65536)`/`update` loop in
`Zip.check_file_version`: fold `update` over the 65536-byte chunks of the
file content, then take the hex digest. -/
def sha1hexChunks (content : List Nat) : String :=
  hexdigest ((chunksOf 65536 content).foldl hashUpdate [])

/-! ## Calendar dates

`datetime.date` values compare lexicographically on (year, month, day);
`datetime.timedelta` subtraction is day arithmetic on the proleptic Gregorian
calendar, embedded via the standard civil-from-days / days-from-civil
conversions. -/

/-- A `datetime.date`: year, month, day. -/
structure Date where
  y : Int
  m : Int
  d : Int
deriving DecidableEq, Repr

/-- `datetime.date.__lt__`: lexicographic on (year, month, day). -/
def dateLt (a b : Date) : Bool :=
  if a.y < b.y then true
  else if b.y < a.y then false
  else if a.m < b.m then true
  else if b.m < a.m then false
  else decide (a.d < b.d)

/-- Days since 1970-01-01 of a civil date (proleptic Gregorian). -/
def daysFromCivil (dt : Date) : Int :=
  let y := if dt.m ≤ 2 then dt.y - 1 else dt.y
  let era := Int.fdiv y 400
  let yoe := y - era * 400
  let mp := if 2 < dt.m then dt.m - 3 else dt.m + 9
  let doy := Int.fdiv (153 * mp + 2) 5 + dt.d - 1
  let doe := yoe * 365 + Int.fdiv yoe 4 - Int.fdiv yoe 100 + doy
  era * 146097 + doe - 719468

/-- Civil date of a days-since-1970-01-01 count (inverse of
`daysFromCivil`). -/
def civilFromDays (z0 : Int) : Date :=
  let z := z0 + 719468
  let era := Int.fdiv z 146097
  let doe := z - era * 146097
  let yoe := Int.fdiv (doe - Int.fdiv doe 1460 + Int.fdiv doe 36524 - Int.fdiv doe 146096) 365
  let y := yoe + era * 400
  let doy := doe - (365 * yoe + Int.fdiv yoe 4 - Int.fdiv yoe 100)
  let mp := Int.fdiv (5 * doy + 2) 153
  let d := doy - Int.fdiv (153 * mp + 2) 5 + 1
  let m := if mp < 10 then mp + 3 else mp - 9
  ⟨if m ≤ 2 then y + 1 else y, m, d⟩

/-- `(today - datetime.timedelta(days=n)).date()`, the eviction threshold
computed in `SMBServer.check_server`. -/
def subDays (dt : Date) (n : Int) : Date :=
  civilFromDays (daysFromCivil dt - n)

/-- Gregorian leap-year test (as `calendar.isleap` / `datetime`). -/
def leapYear (y : Int) : Bool :=
  (y % 4 = 0 && y % 100 ≠ 0) || y % 400 = 0

/-- Number of days in a month, for `datetime.date` validation. -/
def daysInMonth (y m : Int) : Int :=
  if m = 2 then (if leapYear y then 29 else 28)
  else if m = 4 ∨ m = 6 ∨ m = 9 ∨ m = 11 then 30
  else 31

/-! ## `strptime(name, "%Y%d%m")` on `.tgz`-stripped remote filenames

`SMBServer.check_server` parses each non-directory entry name with
`datetime.datetime.strptime(f.filename.replace(".tgz", ""), "%Y%d%m")`.
CPython compiles that format to the regex
`(?P<Y>\d\d\d\d)(?P<d>3[01]|[12]\d|0[1-9]|[1-9])(?P<m>1[0-2]|0[1-9]|[1-9])`,
matched with backtracking, rejecting unconverted trailing data, and then
validates the triple through the `datetime` constructor (year 1..9999, day
within the month).  The embedding reproduces exactly that: alternatives in
regex order, two-digit before one-digit, full consumption required. -/

/-- Numeric value of a decimal digit character. -/
def digitVal (c : Char) : Nat := c.toNat - 48

/-- Candidate matches for the `%d` field, in regex alternative order
(`3[01] | [12]\d | 0[1-9] | [1-9]`), each with the remaining input. -/
def dCand : List Char → List (Nat × List Char)
  | c1 :: c2 :: rest =>
    (if c1 = '3' ∧ (c2 = '0' ∨ c2 = '1') then [(30 + digitVal c2, rest)]
     else if (c1 = '1' ∨ c1 = '2') ∧ c2.isDigit then
       [(digitVal c1 * 10 + digitVal c2, rest)]
     else if c1 = '0' ∧ ('1' ≤ c2 ∧ c2 ≤ '9') then [(digitVal c2, rest)]
     else []) ++
    (if '1' ≤ c1 ∧ c1 ≤ '9' then [(digitVal c1, c2 :: rest)] else [])
  | [c1] => if '1' ≤ c1 ∧ c1 ≤ '9' then [(digitVal c1, [])] else []
  | [] => []

/-- Candidate matches for the `%m` field, in regex alternative order
(`1[0-2] | 0[1-9] | [1-9]`), each with the remaining input. -/
def mCand : List Char → List (Nat × List Char)
  | c1 :: c2 :: rest =>
    (if c1 = '1' ∧ ('0' ≤ c2 ∧ c2 ≤ '2') then [(10 + digitVal c2, rest)]
     else if c1 = '0' ∧ ('1' ≤ c2 ∧ c2 ≤ '9') then [(digitVal c2, rest)]
     else []) ++
    (if '1' ≤ c1 ∧ c1 ≤ '9' then [(digitVal c1, c2 :: rest)] else [])
  | [c1] => if '1' ≤ c1 ∧ c1 ≤ '9' then [(digitVal c1, [])] else []
  | [] => []

/-- First successful result of `f` over a list (regex backtracking order). -/
def pick {α β : Type} (f : α → Option β) : List α → Option β
  | [] => none
  | a :: as =>
    match f a with
    | some b => some b
    | none => pick f as

/-- Backtracking match of `%d%m` against the rest of the input, requiring
full consumption (the "unconverted data remains" check). -/
def tryDM (rest : List Char) : Option (Nat × Nat) :=
  pick (fun dc =>
    pick (fun mc => if mc.2 = [] then some (dc.1, mc.1) else none) (mCand dc.2))
    (dCand rest)

/-- `strptime(s, "%Y%d%m").date()` as an `Option`: `none` is `ValueError`. -/
def strptimeYDM (cs : List Char) : Option Date :=
  match cs with
  | a :: b :: c :: d :: rest =>
    if a.isDigit ∧ b.isDigit ∧ c.isDigit ∧ d.isDigit then
      let y : Int :=
        (digitVal a * 1000 + digitVal b * 100 + digitVal c * 10 + digitVal d : Nat)
      match tryDM rest with
      | some dm =>
        if 1 ≤ y ∧ (dm.1 : Int) ≤ daysInMonth y dm.2 then
          some ⟨y, dm.2, dm.1⟩
        else none
      | none => none
    else none
  | _ => none

/-- `s.replace(".tgz", "")`: drop every (left-to-right, non-overlapping)
occurrence of `".tgz"`. -/
def stripTgzL : List Char → List Char
  | '.' :: 't' :: 'g' :: 'z' :: rest => stripTgzL rest
  | c :: rest => c :: stripTgzL rest
  | [] => []

/-- The date `check_server` reads off a remote entry name:
`strptime(filename.replace(".tgz", ""), "%Y%d%m")`; `none` means the
`ValueError` raised for an unparsable name. -/
def parseName (s : String) : Option Date :=
  strptimeYDM (stripTgzL s.data)

/-- Zero-padded decimal rendering of `n` to (at least) `w` digits. -/
def padNum (w : Nat) (n : Int) : String :=
  let s := n.toNat.repr
  String.mk (List.replicate (w - s.length) '0') ++ s

/-- `datetime.datetime.today().strftime('%Y%d%m')`: the date key used for
archive names (`Zip.__init__`), year then day then month. -/
def ydmString (dt : Date) : String :=
  padNum 4 dt.y ++ padNum 2 dt.d ++ padNum 2 dt.m

/-! ## Local filesystem and remote share state

The pipeline touches exactly three local files: the retained previous dump
(`./prev_dump.sql`), the freshly extracted dump (`self.name_sql_file`) and
the tar archive (`self.name_tgz`); `FS` keeps the byte content of each slot
(`none` = the file does not exist).  The remote share is a flat listing of
entries (pysmb `listPath`), each a name plus an is-directory flag. -/

/-- The three local files the pipeline reads/writes. -/
structure FS where
  prev : Option (List Nat)
  cur : Option (List Nat)
  tgz : Option (List Nat)
deriving DecidableEq, Repr

/-- A remote listing entry (`smb.base.SharedFile`): name and directory flag. -/
structure Entry where
  filename : String
  isDirectory : Bool
deriving DecidableEq, Repr

/-- Remote share state: the listing, plus whether `listPath` itself fails
(`operationFailure` from the underlying protocol). -/
structure Share where
  entries : List Entry
  listFails : Bool
deriving DecidableEq, Repr

/-- The `self.samba` attribute of `SMBServer`: `None` before `connect`, an
open connection after a successful `connect`, or a closed connection object
after `connect` timed out (it assigns the object, then catches `SMBTimeout`
and closes it — it never resets the attribute to `None`). -/
inductive SmbHandle
  | noneH
  | openH
  | closedH
deriving DecidableEq, Repr

/-- pysmb `listPath` as observed through a handle: raises
`NotConnectedError` on a closed connection, `OperationFailure` when the
share-side listing fails. (`noneH` callers never reach it — both call sites
guard with `if self.samba is not None`.) -/
def listPath (h : SmbHandle) (sh : Share) : Except PyErr (List Entry) :=
  match h with
  | .openH => if sh.listFails then .error .operationFailed else .ok sh.entries
  | _ => .error .notConnectedError

/-- `SMBServer.connect` (source/samba.py:114): always assigns a fresh
connection object; on `SMBTimeout` it logs an ERROR and closes the object,
leaving `self.samba` a closed, non-`None` connection. -/
def connect (ok : Bool) : SmbHandle × List Event :=
  if ok then (.openH, []) else (.closedH, [⟨.ERROR, "SMB Connection"⟩])

/-- `SMBServer.disconnect` (source/samba.py:128): unconditionally
`self.samba.close()` — an `AttributeError` when `self.samba` is `None`. -/
def disconnect (h : SmbHandle) : Except PyErr Unit :=
  if h = .noneH then .error .attributeError else .ok ()

/-- `SMBServer.send_file` (source/samba.py:135): silently skipped when
`self.samba is None`; otherwise opens the local archive (raising
`FileNotFoundError` if absent) and `storeFile`s it (raising
`NotConnectedError` on a closed connection); logs INFO on success. -/
def send_file (h : SmbHandle) (fs : FS) : Except PyErr (List Event) :=
  if h = .noneH then .ok []
  else
    match fs.tgz with
    | none => .error .fileNotFoundError
    | some _ =>
      if h = .openH then .ok [⟨.INFO, "Send File to SMB"⟩]
      else .error .notConnectedError

/-- `SMBServer.check_file` (source/samba.py:180): `Some true`/`Some false`
for present/absent (INFO/ERROR), `Some false` with ERROR when
`self.samba is None`; the final `except Exception` only logs, so a listing
failure falls off the function and returns Python `None`. -/
def check_file (h : SmbHandle) (sh : Share) (file : String) : Option Bool × List Event :=
  if h = .noneH then (some false, [⟨.ERROR, "File Uploaded"⟩])
  else
    match listPath h sh with
    | .error _ => (none, [⟨.ERROR, "File Uploaded"⟩])
    | .ok fl =>
      if fl.any (fun f => f.filename == file) then
        (some true, [⟨.INFO, "File Uploaded"⟩])
      else (some false, [⟨.ERROR, "File Uploaded"⟩])

/-- The per-entry body of the eviction loop in `SMBServer.check_server`
(source/samba.py:162-171), processed in listing order.  Returns the names
passed to `deleteFiles` and whether a `strptime` `ValueError` aborted the
loop (in which case later entries are not examined). -/
def sweep (maxD : Date) : List Entry → List String × Bool
  | [] => ([], false)
  | f :: rest =>
    if f.isDirectory then sweep maxD rest
    else
      match parseName f.filename with
      | none => ([], true)
      | some date =>
        let r := sweep maxD rest
        if dateLt date maxD then (f.filename :: r.1, r.2) else r

/-- `SMBServer.check_server` (source/samba.py:146): the retention sweep.
Computes `max_date = today - save_days`, deletes every non-directory entry
whose parsed name-date is strictly older, and logs INFO with the count; any
exception inside the `try` (unparsable name, listing failure) is caught at
the top and logged as a single ERROR, ending the sweep.  Returns the deleted
names and the events. -/
def check_server (h : SmbHandle) (sh : Share) (today : Date) (saveDays : Int) :
    List String × List Event :=
  if h = .noneH then ([], [⟨.ERROR, "Server File Check"⟩])
  else
    match listPath h sh with
    | .error _ => ([], [⟨.ERROR, "Server File Check"⟩])
    | .ok fl =>
      let maxD := subDays today saveDays
      let r := sweep maxD fl
      if r.2 then (r.1, [⟨.ERROR, "Server File Check"⟩])
      else (r.1, [⟨.INFO, "Server File Check"⟩])

/-- Whether `check_server` run on `today` with window `saveDays` would
delete an entry, taken in isolation: a non-aborting sweep deletes exactly
the entries with `evictable` = true. -/
def evictable (today : Date) (saveDays : Int) (f : Entry) : Bool :=
  match parseName f.filename with
  | some d => dateLt d (subDays today saveDays)
  | none => false

/-! ## Configuration (`config_file.json`) -/

/-- A JSON scalar as read by `json.load`, restricted to the shapes a
`save_days` field can take. -/
inductive JVal
  | jstr (s : String)
  | jint (n : Int)
  | jbool (b : Bool)
  | jnull
deriving DecidableEq, Repr

/-- Digit run of a Python `int()` literal: first digit consumed, then
digits with single underscores allowed only between digits. -/
def intDigits (acc : Nat) : List Char → Option Nat
  | [] => some acc
  | c :: rest =>
    if c.isDigit then intDigits (acc * 10 + digitVal c) rest
    else if c = '_' then
      match rest with
      | c2 :: r2 => if c2.isDigit then intDigits (acc * 10 + digitVal c2) r2 else none
      | [] => none
    else none

/-- `int(s)` for a string: optional surrounding whitespace, optional sign,
then an underscore-separated digit run; anything else is `ValueError`. -/
def pyIntStr (s : String) : Option Int :=
  let cs := s.data.dropWhile Char.isWhitespace
  let core := (cs.reverse.dropWhile Char.isWhitespace).reverse
  let resOf : Bool → List Char → Option Int := fun neg ds =>
    match ds with
    | [] => none
    | c :: rest =>
      if c.isDigit then
        match intDigits (digitVal c) rest with
        | some n => some (if neg then -(n : Int) else (n : Int))
        | none => none
      else none
  match core with
  | '-' :: rest => resOf true rest
  | '+' :: rest => resOf false rest
  | rest => resOf false rest

/-- Python `int(v)` on a JSON value: ints and bools convert, strings parse
or raise `ValueError`, `None` raises `TypeError`. -/
def pyInt : JVal → Except PyErr Int
  | .jint n => .ok n
  | .jbool b => .ok (if b then 1 else 0)
  | .jnull => .error .typeError
  | .jstr s =>
    match pyIntStr s with
    | some n => .ok n
    | none => .error .valueError

/-- The `save_days` handling in `SMBServer.__init__` (source/samba.py:55-59):
`int(data["save_days"])`, with only `ValueError` caught — that case defaults
to 7 and logs a single INFO("JSON read"); any other exception from `int`
propagates. -/
def saveDaysInit (v : JVal) : Except PyErr (Int × List Event) :=
  match pyInt v with
  | .ok n => .ok (n, [])
  | .error .valueError => .ok (7, [⟨.INFO, "JSON read"⟩])
  | .error e => .error e

/-- The configuration fields the core reads (`url-zip`, `file`,
`save_days`); the notification/email/smb-credential fields do not influence
the control flow modelled here. -/
structure Cfg where
  urlZip : String
  file : String
  saveDays : JVal
deriving DecidableEq, Repr

/-- How reading `config_file.json` goes: unreadable file
(`EnvironmentError`), malformed JSON (`JSONDecodeError`), a missing key
(`KeyError`), or a successful load. -/
inductive ConfigSrc
  | missing
  | badJson
  | keyErr
  | ok (c : Cfg)
deriving DecidableEq, Repr

/-- Result of an embedded Python call: a value or a raised exception, each
with the events logged before returning/raising. -/
inductive Res (α : Type)
  | ok (a : α) (evs : List Event)
  | err (e : PyErr) (evs : List Event)
deriving DecidableEq, Repr

/-- `needle` occurs as a contiguous substring (Python `str.find(...) != -1`). -/
def containsSub (needle : List Char) : List Char → Bool
  | [] => needle.isEmpty
  | c :: rest => needle.isPrefixOf (c :: rest) || containsSub needle rest

/-- The `Zip` attributes `main` uses downstream. -/
structure ZipState where
  urlZip : Option String
  nameSql : Option String
  nameTgz : String
deriving DecidableEq, Repr

/-- `Zip.get_config` (source/zip.py:56).  `JSONDecodeError`/`KeyError` log
an ERROR and return early with the url/file attributes still `None`; an
unreadable file (`EnvironmentError`) logs an ERROR but does NOT return, so
the blank-checks log further errors and `user_zip.split("/")` then raises
`AttributeError` on `None`.  On success, blank values are logged as errors
and `.zip`/`.sql` extensions are appended when absent. -/
def get_config (today : Date) : ConfigSrc → Res ZipState
  | .missing =>
    .err .attributeError
      [⟨.ERROR, "JSON file read"⟩, ⟨.ERROR, "JSON file read"⟩, ⟨.ERROR, "JSON file read"⟩]
  | .badJson => .ok ⟨none, none, ydmString today ++ ".tgz"⟩ [⟨.ERROR, "JSON file read"⟩]
  | .keyErr => .ok ⟨none, none, ydmString today ++ ".tgz"⟩ [⟨.ERROR, "JSON file read"⟩]
  | .ok c =>
    let evs := (if c.urlZip = "" then [⟨.ERROR, "JSON file read"⟩] else []) ++
               (if c.file = "" then [⟨.ERROR, "JSON file read"⟩] else [])
    let u := if containsSub ".zip".data c.urlZip.data then c.urlZip else c.urlZip ++ ".zip"
    let f := if containsSub ".sql".data c.file.data then c.file else c.file ++ ".sql"
    .ok ⟨some u, some f, ydmString today ++ ".tgz"⟩ evs

/-- Outcome of the HTTP fetch and in-memory unzip, as the environment
presents it to `Zip.download_unzip`: whether `requests.get` itself returns,
whether the body parses as a zip, whether the status is 2xx, whether the
wanted member is listed, whether extraction succeeds, and the extracted
bytes. -/
structure Http where
  getOk : Bool
  isZip : Bool
  status2xx : Bool
  hasMember : Bool
  extractOk : Bool
  content : List Nat
deriving DecidableEq, Repr

/-- `Zip.download_unzip` (source/zip.py:101).  Note the source order:
`ZipFile(BytesIO(req.content))` runs BEFORE `raise_for_status()`, so a
non-2xx response with a non-zip body surfaces as a `BadZipFile` caught by
the final `except Exception`; every failure path only logs an ERROR — the
method never raises. -/
def download_unzip (url : Option String) (http : Http) (fs : FS) : FS × List Event :=
  match url with
  | none => (fs, [⟨.ERROR, "Request ZIP"⟩])
  | some _ =>
    if ¬http.getOk then (fs, [⟨.ERROR, "Request ZIP"⟩])
    else if ¬http.isZip then (fs, [⟨.ERROR, "Request ZIP"⟩])
    else if ¬http.status2xx then (fs, [⟨.ERROR, "Request ZIP"⟩])
    else if http.hasMember then
      if http.extractOk then
        ({fs with cur := some http.content},
         [⟨.INFO, "SQL File in Zip"⟩, ⟨.INFO, "SQL File Downloaded"⟩])
      else (fs, [⟨.INFO, "SQL File in Zip"⟩, ⟨.ERROR, "SQL File Downloaded"⟩])
    else (fs, [⟨.ERROR, "SQL File in Zip"⟩])

/-- `Zip.check_file_version` (source/zip.py:132).  With no retained copy:
INFO and `true`.  Otherwise both files are chunk-hashed; equal hex digests
log two WARNINGs, delete the extracted file and return `false`; different
digests log INFO and return `true`.  Opening the current file raises
`TypeError` when `name_sql_file` is `None` and `FileNotFoundError` when the
file does not exist — neither is caught here. -/
def check_file_version (nameSql : Option String) (fs : FS) : Res (Bool × FS) :=
  match fs.prev with
  | none => .ok (true, fs) [⟨.INFO, "SQL File Comparison"⟩]
  | some p =>
    match nameSql with
    | none => .err .typeError []
    | some _ =>
      match fs.cur with
      | none => .err .fileNotFoundError []
      | some c =>
        if sha1hexChunks p = sha1hexChunks c then
          .ok (false, {fs with cur := none})
            [⟨.WARNING, "SQL File Comparison"⟩, ⟨.WARNING, "Compress File into TAR"⟩]
        else .ok (true, fs) [⟨.INFO, "SQL File Comparison"⟩]

/-- `Zip.compress_targz` (source/zip.py:178).  `tarfile.open(.., "w:gz")`
creates the archive file; a failing `tar.add` (missing dump, compression
error) is caught and logged as ERROR, leaving a truncated archive file on
disk (modelled as `some []`).  AFTER the `try`, unconditionally: delete the
retained copy if present, then rename the extracted file (if present) into
the retained slot. -/
def compress_targz (fs : FS) (tarFails : Bool) : FS × List Event :=
  let step : FS × List Event :=
    match fs.cur with
    | none => ({fs with tgz := some []}, [⟨.ERROR, "Compress File into TAR"⟩])
    | some c =>
      if tarFails then ({fs with tgz := some []}, [⟨.ERROR, "Compress File into TAR"⟩])
      else ({fs with tgz := some c}, [⟨.INFO, "Compress File into TAR"⟩])
  let fs1 := step.1
  let fs2 := if fs1.prev.isSome then {fs1 with prev := none} else fs1
  let fs3 :=
    match fs1.cur with
    | some c => {fs2 with prev := some c, cur := none}
    | none => fs2
  (fs3, step.2)

/-- `Zip.clean_directory` (source/zip.py:209): remove the local archive. -/
def clean_directory (fs : FS) : FS := {fs with tgz := none}

/-- The `SMBServer` object as `main` sees it: `uninit` when `__init__`
returned early (the `samba`/credential attributes were never assigned), or
fully initialised with the parsed retention window. -/
inductive SMBSt
  | uninit
  | ready (saveDays : Int)
deriving DecidableEq, Repr

/-- `SMBServer.__init__` (source/samba.py:40).  `JSONDecodeError`/`KeyError`
log an ERROR and return early (leaving the instance without a `samba`
attribute); an unreadable file is caught as `EnvironmentError` but NOT
returned from, so the following `if ip_ == ""` raises `NameError`; on a
loaded config the `save_days` field is parsed by `saveDaysInit` (whose
`TypeError` propagates). -/
def smbInit : ConfigSrc → Res SMBSt
  | .missing => .err .nameError [⟨.ERROR, "JSON file read"⟩]
  | .badJson => .ok .uninit [⟨.ERROR, "JSON file read"⟩]
  | .keyErr => .ok .uninit [⟨.ERROR, "JSON file read"⟩]
  | .ok c =>
    match saveDaysInit c.saveDays with
    | .error e => .err e []
    | .ok r => .ok (.ready r.1) r.2

/-- Everything outside the program that a run of `main` observes. -/
structure Env where
  today : Date
  cfg : ConfigSrc
  http : Http
  fs0 : FS
  tarFails : Bool
  connectOk : Bool
  share : Share
deriving DecidableEq, Repr

/-- Result of a run of `main`: `done` means the run reached
`script.log.send_notification_email()` and `clean_directory` (final local
filesystem and full event list); `crashed` means an exception escaped
`main` uncaught, with the events logged up to that point. -/
inductive RunOutcome
  | done (fs : FS) (evs : List Event)
  | crashed (e : PyErr) (evs : List Event)
deriving DecidableEq, Repr

/-- The `try: connect / send_file / check_file / check_server / disconnect`
block of the changed branch (main.py:31-38).  `storeFile` on success makes
the archive appear in the remote listing. -/
def smbBlockChanged (st : SMBSt) (connectOk : Bool) (sh : Share) (fs : FS)
    (name : String) (today : Date) : Res Unit :=
  match st with
  | .uninit => .err .attributeError []
  | .ready saveDays =>
    let c := connect connectOk
    match send_file c.1 fs with
    | .error e => .err e c.2
    | .ok ev2 =>
      let sh1 : Share :=
        if c.1 = .openH then ⟨sh.entries ++ [⟨name, false⟩], sh.listFails⟩ else sh
      let r3 := check_file c.1 sh1 name
      let r4 := check_server c.1 sh1 today saveDays
      match disconnect c.1 with
      | .error e => .err e (c.2 ++ ev2 ++ r3.2 ++ r4.2)
      | .ok _ => .ok () (c.2 ++ ev2 ++ r3.2 ++ r4.2)

/-- The `try: connect / check_server / disconnect` block of the unchanged
branch (main.py:41-46). -/
def smbBlockUnchanged (st : SMBSt) (connectOk : Bool) (sh : Share)
    (today : Date) : Res Unit :=
  match st with
  | .uninit => .err .attributeError []
  | .ready saveDays =>
    let c := connect connectOk
    let r := check_server c.1 sh today saveDays
    match disconnect c.1 with
    | .error e => .err e (c.2 ++ r.2)
    | .ok _ => .ok () (c.2 ++ r.2)

/-- `main` (main.py:13): the orchestrator.  Only `TimeoutError` is caught
around the SMB blocks (logged as ERROR "SMB Server Error"); any other
exception anywhere escapes and the final notification step is never
reached. -/
def main (env : Env) : RunOutcome :=
  match get_config env.today env.cfg with
  | .err e evs => .crashed e evs
  | .ok z evs1 =>
    let dl := download_unzip z.urlZip env.http env.fs0
    match smbInit env.cfg with
    | .err e evs3 => .crashed e (evs1 ++ dl.2 ++ evs3)
    | .ok st evs3 =>
      match check_file_version z.nameSql dl.1 with
      | .err e evs4 => .crashed e (evs1 ++ dl.2 ++ evs3 ++ evs4)
      | .ok chg evs4 =>
        let pre := evs1 ++ dl.2 ++ evs3 ++ evs4
        if chg.1 then
          let cp := compress_targz chg.2 env.tarFails
          match smbBlockChanged st env.connectOk env.share cp.1 z.nameTgz env.today with
          | .err e evs6 =>
            if e = .timeoutError then
              .done (clean_directory cp.1)
                (pre ++ cp.2 ++ evs6 ++ [⟨.ERROR, "SMB Server Error"⟩])
            else .crashed e (pre ++ cp.2 ++ evs6)
          | .ok _ evs6 => .done (clean_directory cp.1) (pre ++ cp.2 ++ evs6)
        else
          match smbBlockUnchanged st env.connectOk env.share env.today with
          | .err e evs6 =>
            if e = .timeoutError then
              .done (clean_directory chg.2) (pre ++ evs6 ++ [⟨.ERROR, "SMB Server Error"⟩])
            else .crashed e (pre ++ evs6)
          | .ok _ evs6 => .done (clean_directory chg.2) (pre ++ evs6)

/-- The change-detection outcome a run of `main` computes, or `none` when
the run raises before reaching the branch on `check_file_version`. -/
def runChanged (env : Env) : Option Bool :=
  match get_config env.today env.cfg with
  | .err _ _ => none
  | .ok z _ =>
    let dl := download_unzip z.urlZip env.http env.fs0
    match smbInit env.cfg with
    | .err _ _ => none
    | .ok _ _ =>
      match check_file_version z.nameSql dl.1 with
      | .err _ _ => none
      | .ok chg _ => some chg.1

/-- A run whose config file is unreadable (Scenario for claim C5): every
other part of the environment is benign. -/
def envMissingCfg : Env :=
  ⟨⟨2026, 10, 12⟩, .missing, ⟨true, true, true, true, true, []⟩,
   ⟨none, none, none⟩, false, true, ⟨[], false⟩⟩

/-- A run whose bundle fetch returns HTTP 404 with an HTML error body
(Scenario D, claim C6): the body is not a zip, there is no retained copy,
and the SMB share is reachable. -/
def env404 : Env :=
  ⟨⟨2026, 10, 12⟩, .ok ⟨"http://host/bundle.zip", "dump.sql", .jint 7⟩,
   ⟨true, false, false, false, false, []⟩, ⟨none, none, none⟩, false, true, ⟨[], false⟩⟩

/-- Like `env404` (HTTP 404 fetch), but a retained copy from an earlier run
is present while no extracted file exists. -/
def env404retained : Env :=
  ⟨⟨2026, 10, 12⟩, .ok ⟨"http://host/bundle.zip", "dump.sql", .jint 7⟩,
   ⟨true, false, false, false, false, []⟩, ⟨some [9], none, none⟩, false, true, ⟨[], false⟩⟩

/-- A run in which the fetched dump is byte-identical to the retained copy
(claim C3): download succeeds with content `[5]`, and `prev_dump.sql`
already holds `[5]`. -/
def envUnchanged : Env :=
  ⟨⟨2026, 10, 12⟩, .ok ⟨"u.zip", "d.sql", .jint 7⟩, ⟨true, true, true, true, true, [5]⟩,
   ⟨some [5], none, none⟩, false, true, ⟨[], false⟩⟩

/-! ## Helper lemmas -/

theorem flatten_chunksOf (n : Nat) (l : List Nat) : (chunksOf n l).flatten = l := by
  have key : ∀ (f : Nat) (l : List Nat), (chunksOfF n f l).flatten = l := by
    intro f
    induction f with
    | zero => intro l; rcases l with _ | ⟨c, cs⟩ <;> simp [chunksOfF]
    | succ f ih =>
      intro l
      rcases l with _ | ⟨c, cs⟩
      · simp [chunksOfF]
      · by_cases h2 : n = 0
        · simp [chunksOfF, h2]
        · simp only [chunksOfF, h2, if_false, ite_false, List.flatten_cons, ih]
          exact List.take_append_drop n (c :: cs)
  exact key l.length l

theorem foldl_hashUpdate (chunks : List (List Nat)) :
    ∀ a, chunks.foldl hashUpdate a = a ++ chunks.flatten := by
  induction chunks with
  | nil => intro a; simp
  | cons c cs ih => intro a; simp [hashUpdate, ih, List.flatten]

theorem sha1hexChunks_eq (c : List Nat) : sha1hexChunks c = sha1hex c := by
  unfold sha1hexChunks hexdigest
  rw [foldl_hashUpdate, flatten_chunksOf]
  rfl

theorem dateLt_irrefl (d : Date) : dateLt d d = false := by
  simp [dateLt]

theorem download_unzip_prev (url : Option String) (http : Http) (fs : FS) :
    (download_unzip url http fs).1.prev = fs.prev := by
  rcases url with _ | u
  · rfl
  · simp only [download_unzip]
    split_ifs <;> rfl

theorem check_server_shape (h : SmbHandle) (sh : Share) (today : Date) (n : Int) :
    ∃ sev del, check_server h sh today n = (del, [⟨sev, "Server File Check"⟩]) := by
  unfold check_server
  split_ifs with h1
  · exact ⟨.ERROR, [], rfl⟩
  · rcases hl : listPath h sh with e | fl
    · simp only [hl]
      exact ⟨.ERROR, [], rfl⟩
    · simp only [hl]
      rcases hs : (sweep (subDays today n) fl).2 with _ | _
      · exact ⟨.INFO, (sweep (subDays today n) fl).1, by simp [hs]⟩
      · exact ⟨.ERROR, (sweep (subDays today n) fl).1, by simp [hs]⟩

theorem sweep_eq (today : Date) (n : Int) (l : List Entry)
    (hAll : ∀ f ∈ l, f.isDirectory = false → (parseName f.filename).isSome) :
    sweep (subDays today n) l =
      ((l.filter fun f => !f.isDirectory && evictable today n f).map (·.filename), false) := by
  induction l with
  | nil => simp [sweep]
  | cons f rest ih =>
    have hrest : ∀ g ∈ rest, g.isDirectory = false → (parseName g.filename).isSome :=
      fun g hg => hAll g (List.mem_cons_of_mem _ hg)
    rcases hd : f.isDirectory with _ | _
    · have hp := hAll f (List.mem_cons_self _ _) hd
      rcases hpv : parseName f.filename with _ | d
      · rw [hpv] at hp; simp at hp
      · rcases hlt : dateLt d (subDays today n) with _ | _ <;>
          simp [sweep, hd, hpv, ih hrest, evictable, hlt, List.filter]
    · simp [sweep, hd, ih hrest, List.filter]

theorem sweep_append_abort (today : Date) (n : Int) (pre post : List Entry) (bad : Entry)
    (hAll : ∀ f ∈ pre, f.isDirectory = false → (parseName f.filename).isSome)
    (hbd : bad.isDirectory = false) (hbp : parseName bad.filename = none) :
    sweep (subDays today n) (pre ++ bad :: post) = ((sweep (subDays today n) pre).1, true) := by
  induction pre with
  | nil => simp [sweep, hbd, hbp]
  | cons f rest ih =>
    have hrest : ∀ g ∈ rest, g.isDirectory = false → (parseName g.filename).isSome :=
      fun g hg => hAll g (List.mem_cons_of_mem _ hg)
    rcases hd : f.isDirectory with _ | _
    · have hp := hAll f (List.mem_cons_self _ _) hd
      rcases hpv : parseName f.filename with _ | d
      · rw [hpv] at hp; simp at hp
      · rcases hlt : dateLt d (subDays today n) with _ | _ <;>
          simp [sweep, hd, hpv, ih hrest, hlt]
    · simp [sweep, hd, ih hrest]

/-! ## Claim theorems -/

/-- C9: the content fingerprint is chunk-size-invariant.  Feeding any
partition of a file's bytes chunk-by-chunk through the hash object
(`hashUpdate` folded from the empty state, as the `read(65536)` loop in
`Zip.check_file_version` does) yields the same hex digest as hashing the
whole content in a single read; in particular the implementation's
65536-byte chunking (`sha1hexChunks`) does.  Hence equal byte contents
always compare equal, and contents whose digests differ are themselves
different — "differing contents compare unequal" holds up to SHA-1
collision, which is exactly this contrapositive. -/
theorem fingerprint_chunk_invariant (c c2 : List Nat) (chunks : List (List Nat))
    (h : chunks.flatten = c) :
    hexdigest (chunks.foldl hashUpdate []) = sha1hex c
    ∧ sha1hexChunks c = sha1hex c
    ∧ (∀ a b : List Nat, a = b → sha1hex a = sha1hex b)
    ∧ (sha1hex c ≠ sha1hex c2 → c ≠ c2) := by
  refine ⟨?_, sha1hexChunks_eq c, fun a b hab => by rw [hab], fun hne hc => hne (by rw [hc])⟩
  rw [foldl_hashUpdate, List.nil_append, h]
  rfl

/-- C9 witness: the partition `[[1], [2, 3]]` of the content `[1, 2, 3]`
hashes to the same digest as the whole content, chunked or not. -/
theorem fingerprint_chunk_invariant_witness :
    ([[1], [2, 3]] : List (List Nat)).flatten = [1, 2, 3]
    ∧ hexdigest (([[1], [2, 3]] : List (List Nat)).foldl hashUpdate []) = sha1hex [1, 2, 3]
    ∧ sha1hexChunks [1, 2, 3] = sha1hex [1, 2, 3] :=
  ⟨by decide,
   (fingerprint_chunk_invariant [1, 2, 3] [] [[1], [2, 3]] (by decide)).1,
   (fingerprint_chunk_invariant [1, 2, 3] [] [[1], [2, 3]] (by decide)).2.1⟩

/-- C2: change detection.  With the extracted file present: no retained
copy gives `true` with INFO("SQL File Comparison"); with a retained copy the
result is `false` exactly when the SHA-1 hex digests of the two full
contents agree, in which case two WARNINGs are logged and the extracted file
is deleted, and `true` with INFO otherwise.  The digests are functions of
the entire byte content (`sha1hex`), not of size or mtime. -/
theorem check_file_version_spec (fs : FS) (nm : String) (c : List Nat)
    (hcur : fs.cur = some c) :
    (fs.prev = none →
      check_file_version (some nm) fs = .ok (true, fs) [⟨.INFO, "SQL File Comparison"⟩])
    ∧ (∀ p, fs.prev = some p →
        check_file_version (some nm) fs =
          if sha1hex p = sha1hex c then
            .ok (false, {fs with cur := none})
              [⟨.WARNING, "SQL File Comparison"⟩, ⟨.WARNING, "Compress File into TAR"⟩]
          else .ok (true, fs) [⟨.INFO, "SQL File Comparison"⟩]) := by
  constructor
  · intro hp
    simp [check_file_version, hp]
  · intro p hp
    simp only [check_file_version, hp, hcur, sha1hexChunks_eq]

/-- C2 witness: a first run (no retained copy) on a present extracted file,
and an unchanged second run (retained copy byte-identical to the extracted
file), both evaluated concretely. -/
theorem check_file_version_spec_witness :
    check_file_version (some "dump.sql") ⟨none, some [7], none⟩
      = .ok (true, ⟨none, some [7], none⟩) [⟨.INFO, "SQL File Comparison"⟩]
    ∧ check_file_version (some "dump.sql") ⟨some [7], some [7], none⟩
      = .ok (false, ⟨some [7], none, none⟩)
          [⟨.WARNING, "SQL File Comparison"⟩, ⟨.WARNING, "Compress File into TAR"⟩] := by
  constructor
  · exact (check_file_version_spec ⟨none, some [7], none⟩ "dump.sql" [7] rfl).1 rfl
  · have h := (check_file_version_spec ⟨some [7], some [7], none⟩ "dump.sql" [7] rfl).2 [7] rfl
    rw [h, if_pos rfl]

/-- C10: an unparsable `save_days` value (one on which `int()` raises
`ValueError`) makes `SMBServer.__init__` default the retention window to 7
days, logging only a single INFO("JSON read") event, and the initialised
server hands exactly that 7-day window to the eviction sweep. -/
theorem save_days_default_seven (v : JVal) (hv : pyInt v = .error .valueError) :
    saveDaysInit v = .ok (7, [⟨.INFO, "JSON read"⟩])
    ∧ (∀ c : Cfg, c.saveDays = v →
        smbInit (.ok c) = .ok (.ready 7) [⟨.INFO, "JSON read"⟩]) := by
  have h1 : saveDaysInit v = .ok (7, [⟨.INFO, "JSON read"⟩]) := by
    simp [saveDaysInit, hv]
  exact ⟨h1, fun c hc => by simp [smbInit, hc, h1]⟩

/-- C10 witness: `save_days = "abc"` defaults to a 7-day window with one
INFO event. -/
theorem save_days_default_seven_witness :
    saveDaysInit (.jstr "abc") = .ok (7, [⟨.INFO, "JSON read"⟩])
    ∧ smbInit (.ok ⟨"u.zip", "d.sql", .jstr "abc"⟩)
        = .ok (.ready 7) [⟨.INFO, "JSON read"⟩] :=
  ⟨(save_days_default_seven (.jstr "abc") rfl).1,
   (save_days_default_seven (.jstr "abc") rfl).2
     ⟨"u.zip", "d.sql", .jstr "abc"⟩ rfl⟩

/-- C7 counterexample: calling `send_file` with `self.samba = None` performs
no transfer but also emits NO event at all — the `if self.samba is not None`
guard has no `else`, so the claimed ERROR event is never produced. -/
theorem send_file_silent_counterexample :
    send_file .noneH ⟨none, none, none⟩ = .ok [] := rfl

/-- C7 (amended): when `self.samba` is `None`, `send_file` performs no
transfer and emits no event (a silent no-op, not an ERROR); after a connect
attempt that failed with a timeout, `self.samba` is a closed non-`None`
connection object, so `send_file` does attempt the transfer and raises —
`FileNotFoundError` if the local archive is missing, `NotConnectedError`
from `storeFile` otherwise — instead of no-opping with an ERROR. -/
theorem send_file_not_connected (fs : FS) (b : List Nat) :
    send_file .noneH fs = .ok []
    ∧ (connect false).1 = .closedH
    ∧ (fs.tgz = some b → send_file (connect false).1 fs = .error .notConnectedError)
    ∧ (fs.tgz = none → send_file (connect false).1 fs = .error .fileNotFoundError) := by
  refine ⟨rfl, rfl, fun h => ?_, fun h => ?_⟩
  · simp [send_file, connect, h]
  · simp [send_file, connect, h]

/-- C7 witness: both failure shapes of `send_file` after a timed-out
connect, at concrete states. -/
theorem send_file_not_connected_witness :
    send_file .noneH ⟨none, none, some []⟩ = .ok []
    ∧ send_file (connect false).1 ⟨none, none, some []⟩ = .error .notConnectedError
    ∧ send_file (connect false).1 ⟨none, none, none⟩ = .error .fileNotFoundError :=
  ⟨(send_file_not_connected ⟨none, none, some []⟩ []).1,
   (send_file_not_connected ⟨none, none, some []⟩ []).2.2.1 rfl,
   (send_file_not_connected ⟨none, none, none⟩ []).2.2.2 rfl⟩

/-- C8 counterexample: when the underlying listing operation fails, the
`except Exception` handler in `check_file` only logs — the function falls
off the end and returns Python `None`, not `False`. -/
theorem check_file_none_counterexample :
    (check_file .openH ⟨[], true⟩ "20261210.tgz").1 = none
    ∧ (check_file .openH ⟨[], true⟩ "20261210.tgz").1 ≠ some false
    ∧ (check_file .openH ⟨[], true⟩ "20261210.tgz").2 = [⟨.ERROR, "File Uploaded"⟩] := by
  decide

/-- C8 (amended): `check_file` returns `true` exactly when the remote
listing has an entry whose name equals the archive name, `false` with an
ERROR event when `self.samba` is `None`, and — on a listing failure — logs
an ERROR but returns `None` (Python's implicit return), not `False`. -/
theorem check_file_presence (sh : Share) (file : String) :
    (sh.listFails = false →
      ((check_file .openH sh file).1 = some true ↔ ∃ f ∈ sh.entries, f.filename = file))
    ∧ check_file .noneH sh file = (some false, [⟨.ERROR, "File Uploaded"⟩])
    ∧ (sh.listFails = true →
        check_file .openH sh file = (none, [⟨.ERROR, "File Uploaded"⟩])) := by
  refine ⟨fun hlf => ?_, rfl, fun hlf => by simp [check_file, listPath, hlf]⟩
  have hred : (check_file .openH sh file).1
      = some (sh.entries.any (fun f => f.filename == file)) := by
    rcases hany : sh.entries.any (fun f => f.filename == file) with _ | _ <;>
      simp [check_file, listPath, hlf, hany]
  rw [hred]
  simp [List.any_eq_true]

/-- C8 witness: presence detection at a concrete share (entry found), plus
the not-connected shape. -/
theorem check_file_presence_witness :
    (check_file .openH ⟨[⟨"20261210.tgz", false⟩], false⟩ "20261210.tgz").1 = some true
    ∧ check_file .noneH ⟨[], false⟩ "x.tgz" = (some false, [⟨.ERROR, "File Uploaded"⟩]) :=
  ⟨((check_file_presence ⟨[⟨"20261210.tgz", false⟩], false⟩ "20261210.tgz").1 rfl).mpr
     ⟨⟨"20261210.tgz", false⟩, List.mem_singleton.mpr rfl, rfl⟩,
   (check_file_presence ⟨[], false⟩ "x.tgz").2.1⟩

/-- C1 counterexample: with an unparsable name in front, a strictly expired
entry later in the listing is NOT deleted — the sweep returns no deletions
and one ERROR, although `"20200202.tgz"` parses to 2020-02-02, strictly
before `today - 7` = 2026-10-05.  The claim's "deletes exactly … and
nothing else" therefore fails on listings with unparsable names. -/
theorem check_server_claimC1_counterexample :
    check_server .openH ⟨[⟨"oops.txt", false⟩, ⟨"20200202.tgz", false⟩], false⟩
        ⟨2026, 10, 12⟩ 7
      = ([], [⟨.ERROR, "Server File Check"⟩])
    ∧ parseName "20200202.tgz" = some ⟨2020, 2, 2⟩
    ∧ dateLt ⟨2020, 2, 2⟩ (subDays ⟨2026, 10, 12⟩ 7) = true := by
  refine ⟨?_, by decide, by decide⟩
  decide

/-- C1 (amended): on a listing in which every non-directory name parses as
a date, `check_server` deletes exactly the non-directory entries whose
parsed date is strictly earlier than `today - retentionDays` (directories
are skipped by the `isDirectory` guard and never deleted), logs a single
INFO, and an entry dated exactly `today - retentionDays` is never among the
evictable ones. -/
theorem check_server_evicts_exactly (entries : List Entry) (today : Date) (n : Int)
    (hAll : ∀ f ∈ entries, f.isDirectory = false → (parseName f.filename).isSome) :
    check_server .openH ⟨entries, false⟩ today n
      = ((entries.filter fun f => !f.isDirectory && evictable today n f).map (·.filename),
         [⟨.INFO, "Server File Check"⟩])
    ∧ ∀ f ∈ entries, parseName f.filename = some (subDays today n) →
        evictable today n f = false := by
  constructor
  · simp only [check_server, listPath, if_false, reduceCtorEq]
    rw [sweep_eq today n entries hAll]
    simp
  · intro f _ hf
    simp [evictable, hf, dateLt_irrefl]

/-- C1 witness: entries dated 2026-10-01 (expired), 2026-10-05 (exactly
`today - 7`: retained) and a directory, swept on 2026-10-12 with a 7-day
window: only the expired file is deleted. -/
theorem check_server_evicts_exactly_witness :
    check_server .openH
        ⟨[⟨"20260110.tgz", false⟩, ⟨"20260510.tgz", false⟩, ⟨"backups", true⟩], false⟩
        ⟨2026, 10, 12⟩ 7
      = (["20260110.tgz"], [⟨.INFO, "Server File Check"⟩]) := by
  rw [(check_server_evicts_exactly
        [⟨"20260110.tgz", false⟩, ⟨"20260510.tgz", false⟩, ⟨"backups", true⟩]
        ⟨2026, 10, 12⟩ 7 (by decide)).1]
  decide

/-- C4 counterexample: an entry whose name fails to parse aborts the whole
sweep — the strictly expired `"20190101.tgz"` right after it is not even
considered, so entry processing is NOT independent. -/
theorem check_server_abort_counterexample :
    check_server .openH ⟨[⟨"notadate", false⟩, ⟨"20190101.tgz", false⟩], false⟩
        ⟨2026, 10, 12⟩ 7
      = ([], [⟨.ERROR, "Server File Check"⟩])
    ∧ evictable ⟨2026, 10, 12⟩ 7 ⟨"20190101.tgz", false⟩ = true := by
  constructor
  · decide
  · decide

/-- C4 (amended): a non-directory entry whose name fails to parse raises
`ValueError` inside the loop; the top-level `except` catches it, logs one
ERROR("Server File Check"), and the sweep ends there — deletions made
before the unparsable entry persist, and entries after it are never
evaluated. -/
theorem check_server_abort_on_unparsable (pre post : List Entry) (bad : Entry)
    (today : Date) (n : Int)
    (hAll : ∀ f ∈ pre, f.isDirectory = false → (parseName f.filename).isSome)
    (hbd : bad.isDirectory = false) (hbp : parseName bad.filename = none) :
    check_server .openH ⟨pre ++ bad :: post, false⟩ today n
      = ((pre.filter fun f => !f.isDirectory && evictable today n f).map (·.filename),
         [⟨.ERROR, "Server File Check"⟩]) := by
  simp only [check_server, listPath, if_false, reduceCtorEq]
  rw [sweep_append_abort today n pre post bad hAll hbd hbp,
      sweep_eq today n pre hAll]
  simp

/-- C4 witness: an expired entry before the unparsable one is deleted, a
fresher-than-window entry before it is kept, the expired entry after it is
never examined, and the run reports ERROR. -/
theorem check_server_abort_on_unparsable_witness :
    check_server .openH
        ⟨[⟨"20190505.tgz", false⟩, ⟨"junkname", false⟩, ⟨"20190606.tgz", false⟩], false⟩
        ⟨2026, 10, 12⟩ 7
      = (["20190505.tgz"], [⟨.ERROR, "Server File Check"⟩]) := by
  have h := check_server_abort_on_unparsable [⟨"20190505.tgz", false⟩]
        [⟨"20190606.tgz", false⟩] ⟨"junkname", false⟩ ⟨2026, 10, 12⟩ 7
        (by decide) (by decide) (by decide)
  simp only [List.cons_append, List.nil_append] at h
  rw [h]
  decide

/-- C5 (code bug): with an unreadable config file, `Zip.get_config` catches
the `EnvironmentError` but — unlike its sibling handlers — does not return,
so `user_zip.split("/")` runs on `None` and the resulting `AttributeError`
escapes `main` uncaught: the run crashes after three ERROR events and never
reaches `send_notification_email`.  Moreover `SMBServer.disconnect` on a
never-connected instance is `None.close()` — an `AttributeError`, not a
no-op. -/
theorem orchestrator_crash_missing_config :
    main envMissingCfg = .crashed .attributeError
      [⟨.ERROR, "JSON file read"⟩, ⟨.ERROR, "JSON file read"⟩, ⟨.ERROR, "JSON file read"⟩]
    ∧ disconnect .noneH = .error .attributeError :=
  ⟨by decide, rfl⟩

/-- C6 counterexample: on an HTTP 404 fetch (body not a zip) with no
retained copy, the run does emit ERROR("Request ZIP"), but change detection
defaults to `true` and the archive step IS attempted — the trace contains
ERROR("Compress File into TAR"), refuting "no archive is attempted"; the
truncated archive left by `tarfile.open` is even uploaded. -/
theorem fetch404_counterexample :
    main env404 = .done ⟨none, none, none⟩
      [⟨.ERROR, "Request ZIP"⟩, ⟨.INFO, "SQL File Comparison"⟩,
       ⟨.ERROR, "Compress File into TAR"⟩, ⟨.INFO, "Send File to SMB"⟩,
       ⟨.INFO, "File Uploaded"⟩, ⟨.INFO, "Server File Check"⟩] := by
  decide

/-- C3: retained-copy rotation.  Part 1: whenever the extracted file exists
(content `c`), `compress_targz` — regardless of whether packaging succeeded
or failed (`tf`) — leaves the retained slot holding exactly `c` (the prior
retained copy, if any, is gone) and the extracted slot empty.  Part 2: in
every run of `main` whose change detection comes out `false`, the run
completes (reaches the final report) with the retained copy exactly as it
started. -/
theorem retained_copy_rotation (fs : FS) (tf : Bool) (c : List Nat) (env : Env)
    (h1 : fs.cur = some c) (h2 : runChanged env = some false) :
    ((compress_targz fs tf).1.prev = some c ∧ (compress_targz fs tf).1.cur = none)
    ∧ ∃ fs' evs, main env = .done fs' evs ∧ fs'.prev = env.fs0.prev := by
  constructor
  · rcases tf with _ | _ <;> rcases hp : fs.prev with _ | p <;>
      simp [compress_targz, h1, hp]
  · rcases hgc : get_config env.today env.cfg with ⟨z, evs1⟩ | ⟨e0, evs0⟩
    swap
    · simp [runChanged, hgc] at h2
    rcases hsi : smbInit env.cfg with ⟨st, evs3⟩ | ⟨e0, evs0⟩
    swap
    · simp [runChanged, hgc, hsi] at h2
    rcases hcv : check_file_version z.nameSql (download_unzip z.urlZip env.http env.fs0).1
      with ⟨chg, evs4⟩ | ⟨e0, evs0⟩
    swap
    · simp [runChanged, hgc, hsi, hcv] at h2
    have hfalse : chg.1 = false := by
      simpa [runChanged, hgc, hsi, hcv] using h2
    have hcv0 := hcv
    rcases hprev : (download_unzip z.urlZip env.http env.fs0).1.prev with _ | p
    · simp only [check_file_version, hprev] at hcv
      injection hcv with hA hB
      rw [← hA] at hfalse
      simp at hfalse
    rcases hns : z.nameSql with _ | nm
    · simp only [check_file_version, hprev, hns] at hcv
      simp at hcv
    rcases hcur : (download_unzip z.urlZip env.http env.fs0).1.cur with _ | cc
    · simp only [check_file_version, hprev, hns, hcur] at hcv
      simp at hcv
    by_cases hh : sha1hexChunks p = sha1hexChunks cc
    case neg =>
      simp only [check_file_version, hprev, hns, hcur, if_neg hh] at hcv
      injection hcv with hA hB
      rw [← hA] at hfalse
      simp at hfalse
    simp only [check_file_version, hprev, hns, hcur, if_pos hh] at hcv
    injection hcv with hA hB
    rcases hcfg : env.cfg with _ | _ | _ | cfgv
    · rw [hcfg] at hgc; simp [get_config] at hgc
    · rw [hcfg] at hgc
      simp only [get_config, Res.ok.injEq] at hgc
      rw [← hgc.1] at hns
      simp at hns
    · rw [hcfg] at hgc
      simp only [get_config, Res.ok.injEq] at hgc
      rw [← hgc.1] at hns
      simp at hns
    rw [hcfg] at hgc hsi
    rcases hsd : saveDaysInit cfgv.saveDays with e1 | r
    · simp [smbInit, hsd] at hsi
    have hsi2 := hsi
    simp only [smbInit, hsd, Res.ok.injEq] at hsi2
    obtain ⟨hst, hevs3⟩ := hsi2
    subst hst
    subst hA
    obtain ⟨evsB, hblock⟩ :
        ∃ evsB, smbBlockUnchanged (.ready r.1) env.connectOk env.share env.today
          = .ok () evsB := by
      rcases hco : env.connectOk with _ | _
      · exact ⟨_, rfl⟩
      · exact ⟨_, rfl⟩
    have hp0 : env.fs0.prev = some p := by
      have hdp := download_unzip_prev z.urlZip env.http env.fs0
      rw [hprev] at hdp
      exact hdp.symm
    refine ⟨clean_directory ⟨some p, none, (download_unzip z.urlZip env.http env.fs0).1.tgz⟩,
      evs1 ++ (download_unzip z.urlZip env.http env.fs0).2 ++ evs3 ++ evs4 ++ evsB, ?_, ?_⟩
    · simp only [main, hcfg, hgc, hsi, hcv0]
      simp [hblock]
    · simp [clean_directory, hp0]

set_option maxRecDepth 20000 in
/-- C3 witness: part 1 at a concrete filesystem (extracted file `[1]`,
packaging succeeding), part 2 at a concrete unchanged run (retained copy
`[5]`, fetched content `[5]`, so change detection is `false`). -/
theorem retained_copy_rotation_witness :
    (compress_targz ⟨none, some [1], none⟩ false).1.prev = some [1]
    ∧ (compress_targz ⟨none, some [1], none⟩ false).1.cur = none
    ∧ ∃ fs' evs, main envUnchanged = .done fs' evs ∧ fs'.prev = envUnchanged.fs0.prev := by
  have h := retained_copy_rotation ⟨none, some [1], none⟩ false [1] envUnchanged rfl
    (by decide)
  exact ⟨h.1.1, h.1.2, h.2⟩

/-- C6 (amended): when the bundle fetch returns a non-2xx response (its
body not being a zip), the run emits ERROR("Request ZIP") for the fetch
stage — but the pipeline is not aborted.  If no retained copy exists,
change detection defaults to `true`, the archive step IS attempted (its
ERROR appears in the trace), and — because `tarfile.open` left a truncated
local archive that `send_file` happily uploads — the retention sweep and the
final report are still performed.  If a retained copy exists, the version
check opens the missing extracted file and the `FileNotFoundError` escapes
`main`: no sweep, no report. -/
theorem fetch404_run (env : Env) (cfgv : Cfg)
    (hcfg : env.cfg = .ok cfgv)
    (hget : env.http.getOk = true)
    (hzip : env.http.isZip = false)
    (hconn : env.connectOk = true)
    (hsd : ∃ r, saveDaysInit cfgv.saveDays = Except.ok r) :
    (env.fs0.prev = none → env.fs0.cur = none →
      ∃ fs evs, main env = .done fs evs
        ∧ (⟨.ERROR, "Request ZIP"⟩ : Event) ∈ evs
        ∧ (⟨.ERROR, "Compress File into TAR"⟩ : Event) ∈ evs
        ∧ ∃ e ∈ evs, e.stage = "Server File Check")
    ∧ (∀ p, env.fs0.prev = some p → env.fs0.cur = none →
        ∃ evs, main env = .crashed .fileNotFoundError evs) := by
  obtain ⟨r, hr⟩ := hsd
  have hgc : get_config env.today (.ok cfgv) = .ok
      ⟨some (if containsSub ".zip".data cfgv.urlZip.data then cfgv.urlZip
             else cfgv.urlZip ++ ".zip"),
       some (if containsSub ".sql".data cfgv.file.data then cfgv.file
             else cfgv.file ++ ".sql"),
       ydmString env.today ++ ".tgz"⟩
      ((if cfgv.urlZip = "" then [⟨.ERROR, "JSON file read"⟩] else []) ++
       (if cfgv.file = "" then [⟨.ERROR, "JSON file read"⟩] else [])) := rfl
  have hdl : ∀ u, download_unzip (some u) env.http env.fs0
      = (env.fs0, [⟨.ERROR, "Request ZIP"⟩]) := by
    intro u
    simp [download_unzip, hget, hzip]
  have hsi : smbInit (.ok cfgv) = .ok (.ready r.1) r.2 := by
    simp [smbInit, hr]
  constructor
  · intro hprev hcur
    have hcv : ∀ nm, check_file_version (some nm) env.fs0
        = .ok (true, env.fs0) [⟨.INFO, "SQL File Comparison"⟩] := by
      intro nm
      simp [check_file_version, hprev]
    have hcp : compress_targz env.fs0 env.tarFails
        = ({env.fs0 with tgz := some []}, [⟨.ERROR, "Compress File into TAR"⟩]) := by
      rcases ht : env.tarFails with _ | _ <;>
        simp [compress_targz, hcur, hprev, ht]
    obtain ⟨sev, del, hcs⟩ := check_server_shape .openH
      ⟨env.share.entries ++ [⟨ydmString env.today ++ ".tgz", false⟩], env.share.listFails⟩
      env.today r.1
    have hblock : smbBlockChanged (.ready r.1) env.connectOk env.share
        {env.fs0 with tgz := some []} (ydmString env.today ++ ".tgz") env.today
        = .ok () ([] ++ [⟨.INFO, "Send File to SMB"⟩] ++
            (check_file .openH
              ⟨env.share.entries ++ [⟨ydmString env.today ++ ".tgz", false⟩],
               env.share.listFails⟩ (ydmString env.today ++ ".tgz")).2 ++
            [⟨sev, "Server File Check"⟩]) := by
      rw [hconn]
      simp [smbBlockChanged, connect, send_file, disconnect, hcs]
    have hmain : main env = .done ⟨env.fs0.prev, env.fs0.cur, none⟩
        (((if cfgv.urlZip = "" then [⟨.ERROR, "JSON file read"⟩] else []) ++
          (if cfgv.file = "" then [⟨.ERROR, "JSON file read"⟩] else [])) ++
         [⟨.ERROR, "Request ZIP"⟩] ++ r.2 ++ [⟨.INFO, "SQL File Comparison"⟩] ++
         [⟨.ERROR, "Compress File into TAR"⟩] ++
         ([] ++ [⟨.INFO, "Send File to SMB"⟩] ++
          (check_file .openH
            ⟨env.share.entries ++ [⟨ydmString env.today ++ ".tgz", false⟩],
             env.share.listFails⟩ (ydmString env.today ++ ".tgz")).2 ++
          [⟨sev, "Server File Check"⟩])) := by
      simp only [main, hcfg, hgc, hdl, hsi, hcv, hcp, hblock]
      simp [clean_directory]
    refine ⟨_, _, hmain, ?_, ?_, ?_⟩
    · simp
    · simp
    · exact ⟨⟨sev, "Server File Check"⟩, by simp, rfl⟩
  · intro p hprev hcur
    have hcv : ∀ nm, check_file_version (some nm) env.fs0
        = .err .fileNotFoundError [] := by
      intro nm
      simp [check_file_version, hprev, hcur]
    refine ⟨((if cfgv.urlZip = "" then [⟨.ERROR, "JSON file read"⟩] else []) ++
      (if cfgv.file = "" then [⟨.ERROR, "JSON file read"⟩] else [])) ++
      [⟨.ERROR, "Request ZIP"⟩] ++ r.2, ?_⟩
    simp only [main, hcfg, hgc, hdl, hsi, hcv]
    simp

/-- C6 witness: the amended behavior at the two concrete 404 environments —
without a retained copy the run completes with fetch ERROR, an archive
attempt and a sweep event; with a retained copy it crashes with
`FileNotFoundError`. -/
theorem fetch404_run_witness :
    (∃ fs evs, main env404 = RunOutcome.done fs evs
      ∧ (⟨.ERROR, "Request ZIP"⟩ : Event) ∈ evs
      ∧ (⟨.ERROR, "Compress File into TAR"⟩ : Event) ∈ evs
      ∧ ∃ e ∈ evs, e.stage = "Server File Check")
    ∧ ∃ evs, main env404retained = .crashed .fileNotFoundError evs :=
  ⟨(fetch404_run env404 ⟨"http://host/bundle.zip", "dump.sql", .jint 7⟩ rfl rfl rfl rfl
      ⟨(7, []), rfl⟩).1 rfl rfl,
   (fetch404_run env404retained ⟨"http://host/bundle.zip", "dump.sql", .jint 7⟩ rfl rfl rfl
      rfl ⟨(7, []), rfl⟩).2 [9] rfl rfl⟩

end Script
